import Mathlib

/-!
Verification of the analytical query layer of the disease-analytics backend.

The backend computes epidemiological statistics over a star schema
(`fact_cases_weekly`, `fact_population_state_year`,
`fact_population_state_demo_year`) through SQL queries plus JavaScript
post-processing.  This file gives a shallow embedding of the relevant
aggregation logic as executable Lean functions over explicit row lists and
proves (or refutes) the specified properties of the seven analytics
components: rate calculation with year fallback, the 52-week sliding maximum,
proportional demographic estimation, outlier detection, rising-trend
detection, demographic over/under-exposure, and the state-vs-national
comparison.

Conventions of the embedding:
* region, disease and demographic identifiers are natural numbers;
* years and weeks are integers (SQL `INT`);
* nullable SQL values are `Option`;
* case counts and populations are naturals, rates are rationals.
-/

namespace DiseaseAnalytics

/-- A row of `fact_cases_weekly`: `(region_id, disease_id, year, week,
current_week_cases)`.  `current_week_cases` is nullable in the data, hence
`Option Nat`. -/
structure CaseRow where
  regionId : Nat
  diseaseId : Nat
  year : Int
  week : Int
  cases : Option Nat
deriving DecidableEq

/-- A row of `fact_population_state_year` (also reused for the demographic
population table when only the `(region, year) -> population` shape
matters): `(region_id, year, population)`. -/
structure PopRow where
  regionId : Nat
  year : Int
  population : Nat
deriving DecidableEq

/-- Sum of a list of naturals (SQL `SUM` over a group of integer values). -/
def natSum (l : List Nat) : Nat := l.foldr (fun a b => a + b) 0

/-- Sum of a list of rationals. -/
def qsum (l : List ℚ) : ℚ := l.foldr (fun a b => a + b) 0

/-- SQL `COALESCE(current_week_cases, 0)`. -/
def coalesce (c : Option Nat) : Nat := c.getD 0

/-- Population lookup: the row of `fact_population_state_year` for a given
region and year, if any.  The table has at most one row per (region, year);
the embedding takes the first matching row, mirroring the SQL join. -/
def popLookup (pops : List PopRow) (r : Nat) (y : Int) : Option Nat :=
  (pops.find? (fun p => p.regionId == r && p.year == y)).map (fun p => p.population)

/-- Effective population year of the `routes.js` SQL aggregations: the joins
read `p.year = LEAST(requestedYear, 2023)`. -/
def effectivePopYearLeast (y : Int) : Int := min y 2023

/-- Population year used by `getEstimatedDemographicCases` and
`getStateDemographicOverUnder` in `routes.js`:
`const popYear = caseYear === 2024 ? 2023 : caseYear;`. -/
def popYearEstDemo (y : Int) : Int := if y = 2024 then 2023 else y

/-- Population row used by the `routes.js` SQL aggregations for a requested
year (`LEAST(year, 2023)` fallback). -/
def popUsedRoutes (pops : List PopRow) (r : Nat) (y : Int) : Option Nat :=
  popLookup pops r (effectivePopYearLeast y)

/-- Population row used by the estimated-demographic-cases family of
handlers (`caseYear === 2024 ? 2023 : caseYear`). -/
def popUsedEstDemo (pops : List PopRow) (r : Nat) (y : Int) : Option Nat :=
  popLookup pops r (popYearEstDemo y)

/-- Population row used by the `routes2.js` variants: the SQL joins on
`P.year = $1`, the requested year itself, with no fallback. -/
def popUsedRoutes2 (pops : List PopRow) (r : Nat) (y : Int) : Option Nat :=
  popLookup pops r y

/-- Population table for the concrete fallback example: a single region with
one population row, for 2023 only (2023 is the data edge). -/
def exPopsC1 : List PopRow := [⟨0, 2023, 100⟩]

end DiseaseAnalytics

namespace DiseaseAnalytics

/-- Claim C1, counterexample.  The year fallback is NOT applied identically in
every variant: for requested year 2025 the estimated-demographic-cases
handler looks population up at year 2025 (its fallback only special-cases
2024), and the routes2.js variant looks it up at 2025 as well, so with
population data ending at 2023 both find nothing, while the claimed rule
min(2025, 2023) = 2023 finds the 2023 row. -/
theorem c1_counterexample :
    popUsedEstDemo exPopsC1 0 2025 = none ∧
    popUsedRoutes2 exPopsC1 0 2025 = none ∧
    popLookup exPopsC1 0 (min 2025 2023) = some 100 := by
  decide

/-- Claim C1, amended.  The `routes.js` SQL aggregations do use the population
row for `min(requestedYear, 2023)` (conjuncts 1 and 2); the
estimated-demographic-cases handlers agree with that rule only for years up
to 2024, and for 2025 onwards they use the requested year itself (conjuncts
3 and 4); the `routes2.js` variants always use the requested year with no
fallback (conjunct 5). -/
theorem c1_amended (pops : List PopRow) (r : Nat) (y : Int) :
    (2023 ≤ y → popUsedRoutes pops r y = popLookup pops r 2023) ∧
    (y ≤ 2023 → popUsedRoutes pops r y = popLookup pops r y) ∧
    (y ≤ 2024 → popUsedEstDemo pops r y = popLookup pops r (min y 2023)) ∧
    (2025 ≤ y → popUsedEstDemo pops r y = popLookup pops r y) ∧
    popUsedRoutes2 pops r y = popLookup pops r y := by
  refine ⟨fun h => ?_, fun h => ?_, fun h => ?_, fun h => ?_, rfl⟩
  · unfold popUsedRoutes effectivePopYearLeast
    rw [min_eq_right h]
  · unfold popUsedRoutes effectivePopYearLeast
    rw [min_eq_left h]
  · unfold popUsedEstDemo popYearEstDemo
    by_cases h24 : y = 2024
    · subst h24
      norm_num
    · have hle : y ≤ 2023 := by omega
      rw [if_neg h24, min_eq_left hle]
  · unfold popUsedEstDemo popYearEstDemo
    rw [if_neg (by omega)]

/-- Claim C1, witness for the amended theorem at year 2024 (the one year where
the estimated-demographic-cases fallback agrees with the min rule). -/
theorem c1_amended_witness :
    popUsedEstDemo exPopsC1 0 2024 = popLookup exPopsC1 0 (min 2024 2023) :=
  (c1_amended exPopsC1 0 2024).2.2.1 (by decide)

/-! ### Rate Calculator: /api/state-yearly-percapita

The `yearly_cases` CTE groups the fact rows of the requested year and disease
by region and sums `COALESCE(current_week_cases, 0)`; the result joins the
population rows of `LEAST(year, 2023)` and `dim_disease`, and is ordered by
the per-capita value `DESC NULLS LAST`.  Two variants exist in the sources:
the documented `routes.js` variant multiplies by 100000, the first
`routes.js` variant and `routes2.js` return the raw ratio. -/

/-- Region keys of the `yearly_cases` CTE: regions having at least one fact
row for the requested year and disease. -/
def yearlyCaseKeys (facts : List CaseRow) (y : Int) (d : Nat) : List Nat :=
  ((facts.filter (fun f => f.year == y && f.diseaseId == d)).map (fun f => f.regionId)).dedup

/-- `SUM(COALESCE(current_week_cases, 0))` for one region group of
`yearly_cases`. -/
def yearlyTotal (facts : List CaseRow) (y : Int) (d : Nat) (r : Nat) : Nat :=
  natSum ((facts.filter (fun f => f.year == y && f.diseaseId == d && f.regionId == r)).map
    (fun f => coalesce f.cases))

/-- `(total::FLOAT / NULLIF(population, 0)) * 100000` — the per-capita value
of the documented variant; `none` is the SQL NULL produced by a zero
population. -/
def yearlyRate (total p : Nat) : Option ℚ :=
  if p = 0 then none else some ((total : ℚ) / (p : ℚ) * 100000)

/-- `total::FLOAT / NULLIF(population, 0)` — the per-capita value of the
first `routes.js` variant: the raw ratio, without the 100000 scaling.
(`routes2.js` also returns the raw ratio; it additionally joins population
on the exact requested year, which claim C1 covers.) -/
def yearlyRateRaw (total p : Nat) : Option ℚ :=
  if p = 0 then none else some ((total : ℚ) / (p : ℚ))

/-- The joined but not yet ordered result rows, documented variant: one row
per region that has case rows in scope and a population row for
`LEAST(year, 2023)` (inner joins). -/
def yearlyRowsUnsorted (facts : List CaseRow) (pops : List PopRow) (y : Int) (d : Nat) :
    List (Nat × Option ℚ) :=
  (yearlyCaseKeys facts y d).filterMap (fun r =>
    (popLookup pops r (min y 2023)).map (fun p => (r, yearlyRate (yearlyTotal facts y d r) p)))

/-- Same join, raw-ratio variant of the per-capita column. -/
def yearlyRowsRawUnsorted (facts : List CaseRow) (pops : List PopRow) (y : Int) (d : Nat) :
    List (Nat × Option ℚ) :=
  (yearlyCaseKeys facts y d).filterMap (fun r =>
    (popLookup pops r (min y 2023)).map (fun p => (r, yearlyRateRaw (yearlyTotal facts y d r) p)))

/-- The comparator of `ORDER BY "perCapitaYearlyCases" DESC NULLS LAST`:
defined values in descending order, NULLs after every defined value. -/
def rateDescNullsLast (a b : Nat × Option ℚ) : Bool :=
  match a.2, b.2 with
  | some x, some yv => decide (yv ≤ x)
  | some _, none => true
  | none, some _ => false
  | none, none => true

/-- Full output of /api/state-yearly-percapita, documented variant. -/
def yearlyOutput (facts : List CaseRow) (pops : List PopRow) (y : Int) (d : Nat) :
    List (Nat × Option ℚ) :=
  (yearlyRowsUnsorted facts pops y d).mergeSort rateDescNullsLast

/-- Full output of /api/state-yearly-percapita, raw-ratio variant. -/
def yearlyOutputRaw (facts : List CaseRow) (pops : List PopRow) (y : Int) (d : Nat) :
    List (Nat × Option ℚ) :=
  (yearlyRowsRawUnsorted facts pops y d).mergeSort rateDescNullsLast

theorem rateDescNullsLast_trans (a b c : Nat × Option ℚ)
    (hab : rateDescNullsLast a b) (hbc : rateDescNullsLast b c) :
    rateDescNullsLast a c := by
  unfold rateDescNullsLast at *
  rcases a with ⟨_, _ | xa⟩ <;> rcases b with ⟨_, _ | xb⟩ <;> rcases c with ⟨_, _ | xc⟩ <;>
    simp_all
  exact le_trans hbc hab

theorem rateDescNullsLast_total (a b : Nat × Option ℚ) :
    rateDescNullsLast a b || rateDescNullsLast b a := by
  unfold rateDescNullsLast
  rcases a with ⟨_, _ | xa⟩ <;> rcases b with ⟨_, _ | xb⟩ <;> simp
  exact le_total xb xa

/-- Case and population data for the raw-ratio counterexample: one region
with 500 cases across year 2023 and population 1,000,000. -/
def exFactsC2 : List CaseRow := [⟨0, 0, 2023, 1, some 500⟩]

/-- Population table for the raw-ratio counterexample. -/
def exPopsC2 : List PopRow := [⟨0, 2023, 1000000⟩]

/-- Claim C2, counterexample.  The raw-ratio variant of
/api/state-yearly-percapita (first `routes.js` variant, also `routes2.js`)
returns 500 / 1000000 = 1/2000 as `perCapitaYearlyCases`, not the claimed
(sum / population) x 100000 = 50: a returned per-capita value that is the
raw ratio, off by the 100000 factor. -/
theorem c2_counterexample :
    yearlyOutputRaw exFactsC2 exPopsC2 2023 0 = [(0, some ((1 : ℚ) / 2000))] ∧
    yearlyTotal exFactsC2 2023 0 0 = 500 ∧
    popLookup exPopsC2 0 (min 2023 2023) = some 1000000 ∧
    ((1 : ℚ) / 2000) ≠ (500 : ℚ) / 1000000 * 100000 := by
  refine ⟨?_, by decide, by decide, by norm_num⟩
  have h : yearlyRowsRawUnsorted exFactsC2 exPopsC2 2023 0 = [(0, some ((1 : ℚ) / 2000))] := by
    with_unfolding_all rfl
  rw [yearlyOutputRaw, h, List.mergeSort_singleton]

/-- Claim C2, amended.  For every scope key with case rows and a nonzero
population row at the fallback year, the documented `routes.js` variant
surfaces (sum / population) x 100000, while the first variant and
`routes2.js` surface the raw ratio (sum / population); the 100000 scaling is
therefore not applied uniformly across the historical variants. -/
theorem c2_amended (facts : List CaseRow) (pops : List PopRow) (y : Int) (d r p : Nat)
    (hr : r ∈ yearlyCaseKeys facts y d)
    (hp : popLookup pops r (min y 2023) = some p) (hp0 : p ≠ 0) :
    (r, some ((yearlyTotal facts y d r : ℚ) / (p : ℚ) * 100000)) ∈ yearlyOutput facts pops y d ∧
    (r, some ((yearlyTotal facts y d r : ℚ) / (p : ℚ))) ∈ yearlyOutputRaw facts pops y d := by
  constructor
  · rw [yearlyOutput, List.mem_mergeSort, yearlyRowsUnsorted, List.mem_filterMap]
    refine ⟨r, hr, ?_⟩
    rw [hp]
    simp [yearlyRate, hp0]
  · rw [yearlyOutputRaw, List.mem_mergeSort, yearlyRowsRawUnsorted, List.mem_filterMap]
    refine ⟨r, hr, ?_⟩
    rw [hp]
    simp [yearlyRateRaw, hp0]

/-- Claim C2, witness: the amended theorem applied to the concrete one-region
data set. -/
theorem c2_amended_witness :
    (0, some ((yearlyTotal exFactsC2 2023 0 0 : ℚ) / (1000000 : ℚ) * 100000)) ∈
      yearlyOutput exFactsC2 exPopsC2 2023 0 ∧
    (0, some ((yearlyTotal exFactsC2 2023 0 0 : ℚ) / (1000000 : ℚ))) ∈
      yearlyOutputRaw exFactsC2 exPopsC2 2023 0 :=
  c2_amended exFactsC2 exPopsC2 2023 0 0 1000000 (by decide) (by decide) (by decide)

/-- Case data for the missing-population counterexample: one region with a
case row for year 2020 but (together with an empty population table) no
population row at all. -/
def exFactsC10 : List CaseRow := [⟨0, 0, 2020, 1, some 5⟩]

/-- Population table for the zero-population witness: the region exists in
the population table with population 0. -/
def exPopsC10 : List PopRow := [⟨0, 2020, 0⟩]

/-- Claim C10, counterexample.  A grouping key whose population row is
missing is not surfaced with a null/NaN rate: region 0 is a grouping key of
the scope (it has case rows), but with no population row the inner join
drops it and the output is empty, so no sentinel rate is surfaced for it and
no 0-valued case sum appears either. -/
theorem c10_counterexample :
    yearlyCaseKeys exFactsC10 2020 0 = [0] ∧
    yearlyOutput exFactsC10 [] 2020 0 = [] := by
  constructor
  · decide
  · have h : yearlyRowsUnsorted exFactsC10 [] 2020 0 = [] := by with_unfolding_all rfl
    rw [yearlyOutput, h, List.mergeSort_nil]

/-- Claim C10, amended.  In /api/state-yearly-percapita (documented variant):
a grouping key with a population row equal to 0 is surfaced with a null rate
and no division error (conjunct 1); in the `DESC NULLS LAST` output order
every null rate comes after every defined rate (conjunct 2); a grouping key
with no case rows in scope, or (per the counterexample) no population row
for the effective year, is omitted from the output entirely rather than
surfaced as a 0 or null row (conjunct 3). -/
theorem c10_amended (facts : List CaseRow) (pops : List PopRow) (y : Int) (d : Nat) :
    (∀ r, r ∈ yearlyCaseKeys facts y d → popLookup pops r (min y 2023) = some 0 →
      (r, (none : Option ℚ)) ∈ yearlyOutput facts pops y d) ∧
    List.Pairwise (fun a b => a.2 = none → b.2 = none) (yearlyOutput facts pops y d) ∧
    (∀ r q, r ∉ yearlyCaseKeys facts y d → (r, q) ∉ yearlyOutput facts pops y d) := by
  refine ⟨fun r hr hp => ?_, ?_, fun r q hr hmem => ?_⟩
  · rw [yearlyOutput, List.mem_mergeSort, yearlyRowsUnsorted, List.mem_filterMap]
    refine ⟨r, hr, ?_⟩
    rw [hp]
    simp [yearlyRate]
  · have hs := List.sorted_mergeSort
      rateDescNullsLast_trans rateDescNullsLast_total (yearlyRowsUnsorted facts pops y d)
    refine hs.imp ?_
    intro a b hab hnone
    rcases a with ⟨ra, _ | xa⟩
    · rcases b with ⟨rb, _ | xb⟩
      · rfl
      · simp [rateDescNullsLast] at hab
    · exact absurd hnone (by simp)
  · rw [yearlyOutput, List.mem_mergeSort, yearlyRowsUnsorted, List.mem_filterMap] at hmem
    obtain ⟨a, ha, hfa⟩ := hmem
    rcases hpop : popLookup pops a (min y 2023) with _ | p
    · rw [hpop] at hfa
      simp at hfa
    · rw [hpop] at hfa
      simp at hfa
      exact hr (hfa.1 ▸ ha)

/-- Claim C10, witness for the amended theorem: with a population row of 0,
region 0 is surfaced with a null rate. -/
theorem c10_amended_witness :
    (0, (none : Option ℚ)) ∈ yearlyOutput exFactsC10 exPopsC10 2020 0 :=
  (c10_amended exFactsC10 exPopsC10 2020 0).1 0 (by decide) (by decide)

/-! ### Comparative Aggregator: /api/state-vs-national-trend

The national query joins every fact row of the disease and year range with
the population row of its region at `LEAST(year, 2023)` and groups by year,
computing `SUM(cases) / NULLIF(SUM(population), 0) * 100000`.  Because the
join produces one copy of the region population **per fact row**, the
denominator `SUM(p.population)` adds the region population once for every
fact row of the group, not once per region.  The state query instead groups
by `(year, population)`, so its denominator is the single population value. -/

/-- The joined rows of the national query for one year: for every fact row of
the disease with that year, the pair (COALESCE(cases, 0), population of the
row's region at LEAST(year, 2023)).  Rows whose region has no population row
are dropped by the inner join.  (SQL `SUM(cases)` skips NULLs, which equals
summing COALESCEd values; if all case values are NULL the SQL sum is NULL
and the final rate NULL, which the JS maps to 0, same as the 0 sum here.) -/
def natlJoinPops (facts : List CaseRow) (pops : List PopRow) (d : Nat) (yr : Int) :
    List (Nat × Nat) :=
  facts.filterMap (fun f =>
    if f.diseaseId == d && f.year == yr then
      (popLookup pops f.regionId (min yr 2023)).map (fun p => (coalesce f.cases, p))
    else none)

/-- `natl_rate` of the national query for one year: NULL when the year group
is empty (no row emitted) or when the summed population is 0 (NULLIF). -/
def natlRate (facts : List CaseRow) (pops : List PopRow) (d : Nat) (yr : Int) : Option ℚ :=
  let rows := natlJoinPops facts pops d yr
  if rows.isEmpty then none
  else
    let sp := natSum (rows.map (fun ab => ab.2))
    if sp = 0 then none
    else some ((natSum (rows.map (fun ab => ab.1)) : ℚ) / (sp : ℚ) * 100000)

/-- `nationalCasesPer100k` of one output record: the JS maps a missing or
NULL `natl_rate` to 0. -/
def nationalCasesPer100k (facts : List CaseRow) (pops : List PopRow) (d : Nat) (yr : Int) : ℚ :=
  (natlRate facts pops d yr).getD 0

/-- Case sum of the state query group for (state, disease, year). -/
def stateCases (facts : List CaseRow) (s d : Nat) (yr : Int) : Nat :=
  natSum ((facts.filter (fun f => f.regionId == s && f.diseaseId == d && f.year == yr)).map
    (fun f => coalesce f.cases))

/-- Whether the state query has any fact row for (state, disease, year). -/
def stateHasRows (facts : List CaseRow) (s d : Nat) (yr : Int) : Bool :=
  facts.any (fun f => f.regionId == s && f.diseaseId == d && f.year == yr)

/-- `state_rate` of the state query for one year: the group exists when the
state has fact rows and a population row at LEAST(year, 2023); the rate is
`SUM(cases) / NULLIF(population, 0) * 100000` with the single population of
the group. -/
def stateRate (facts : List CaseRow) (pops : List PopRow) (s d : Nat) (yr : Int) : Option ℚ :=
  if stateHasRows facts s d yr then
    match popLookup pops s (min yr 2023) with
    | some p => if p = 0 then none else some ((stateCases facts s d yr : ℚ) / (p : ℚ) * 100000)
    | none => none
  else none

/-- `stateCasesPer100k` of one output record: missing or NULL maps to 0. -/
def stateCasesPer100k (facts : List CaseRow) (pops : List PopRow) (s d : Nat) (yr : Int) : ℚ :=
  (stateRate facts pops s d yr).getD 0

/-- Data exhibiting the inflated national denominator: a single region with
population 100 and two weekly case rows of 10 cases each in year 2020. -/
def exFactsC3 : List CaseRow := [⟨0, 0, 2020, 1, some 10⟩, ⟨0, 0, 2020, 2, some 10⟩]

/-- Population table for the national-denominator example. -/
def exPopsC3 : List PopRow := [⟨0, 2020, 100⟩]

/-- Claim C3: the code is wrong.  With one region (population 100) and two
weekly rows of 10 cases, the claimed national value is
(sum of cases) / (sum of population across all regions) x 100000
= 20 / 100 x 100000 = 20000, but the code returns 10000: the join adds the
region's population once per fact row, so the denominator is 100 + 100.
The same request's state series gives 20000 for the identical scope, so with
a single region the code's national and state values disagree. -/
theorem c3_code_bug :
    nationalCasesPer100k exFactsC3 exPopsC3 0 2020 = 10000 ∧
    (20 : ℚ) / 100 * 100000 = 20000 ∧
    nationalCasesPer100k exFactsC3 exPopsC3 0 2020 ≠ (20 : ℚ) / 100 * 100000 ∧
    stateCasesPer100k exFactsC3 exPopsC3 0 0 2020 = 20000 := by
  refine ⟨by with_unfolding_all rfl, by norm_num, ?_, by with_unfolding_all rfl⟩
  have h1 : nationalCasesPer100k exFactsC3 exPopsC3 0 2020 = 10000 := by
    with_unfolding_all rfl
  have h2 : (20 : ℚ) / 100 * 100000 = 20000 := by norm_num
  rw [h1, h2]
  norm_num

/-! ### Proportional Estimator: /api/estimated-demographic-cases

Two variants allocate the yearly case total C over demographic cells in
proportion to population share.  The documented SQL variant computes the
exact value `(population / total_state_population) * total_yearly_cases`
(0 when the total population is not positive); the first `routes.js` /
`routes2.js` variant computes
`Math.round((population / totalStateDemoPop) * totalYearlyCases)`,
rounding every cell to the nearest integer. -/

/-- JavaScript `Math.round`: round half toward positive infinity. -/
def jsRound (q : ℚ) : ℤ := ⌊q + 1 / 2⌋

/-- Exact per-cell estimate of the documented SQL variant:
`CASE WHEN total > 0 THEN (population / total) * cases ELSE 0 END`. -/
def estCasesExact (cellPop totPop c : ℚ) : ℚ :=
  if 0 < totPop then cellPop / totPop * c else 0

/-- Per-cell estimate of the `Math.round` variant:
`totalStateDemoPop ? Math.round((population / totalStateDemoPop) * totalYearlyCases) : 0`. -/
def estCasesRounded (cellPop totPop c : ℚ) : ℤ :=
  if totPop ≠ 0 then jsRound (cellPop / totPop * c) else 0

theorem qsum_cons (x : ℚ) (l : List ℚ) : qsum (x :: l) = x + qsum l := rfl

theorem qsum_map_div_mul (l : List ℚ) (p c : ℚ) :
    qsum (l.map (fun x => x / p * c)) = qsum l / p * c := by
  induction l with
  | nil => simp [qsum]
  | cons a t ih =>
    rw [List.map_cons, qsum_cons, qsum_cons, ih]
    ring

theorem jsRound_abs_le (q : ℚ) : |(jsRound q : ℚ) - q| ≤ 1 / 2 := by
  have h1 : ((⌊q + 1 / 2⌋ : ℤ) : ℚ) ≤ q + 1 / 2 := Int.floor_le _
  have h2 : q + 1 / 2 < (⌊q + 1 / 2⌋ : ℤ) + 1 := Int.lt_floor_add_one _
  rw [jsRound, abs_le]
  constructor <;> linarith

/-- Claim C4, counterexample.  With three demographic cells of population 1
each (total 3) and total cases C = 1, every rounded estimate is
Math.round(1/3) = 0, so the estimates of the Math.round variant sum to 0,
which misses C = 1 by far more than the claimed 1e-6 relative tolerance. -/
theorem c4_counterexample :
    qsum (([1, 1, 1] : List ℚ).map
      (fun popI => ((estCasesRounded popI (qsum [(1 : ℚ), 1, 1]) 1 : ℤ) : ℚ))) = 0 ∧
    ¬(|(0 : ℚ) - 1| ≤ 1 / 1000000 * |(1 : ℚ)|) := by
  constructor
  · with_unfolding_all rfl
  · rw [abs_le]
    norm_num

/-- Claim C4, amended.  The defining proportional-allocation property holds
for the exact SQL variant: for any cell populations summing to a positive P
and any case total c, the unrounded estimates `(pop_i / P) * c` sum to
exactly c (conjunct 1).  The `Math.round` variant agrees with the exact one
only to within 1/2 per cell (conjunct 2), so its estimates need not sum to c
within a 1e-6 relative tolerance, as the counterexample shows. -/
theorem c4_amended (cells : List ℚ) (c : ℚ) (hP : 0 < qsum cells) :
    qsum (cells.map (fun popI => estCasesExact popI (qsum cells) c)) = c ∧
    ∀ popI : ℚ,
      |((estCasesRounded popI (qsum cells) c : ℤ) : ℚ) -
        estCasesExact popI (qsum cells) c| ≤ 1 / 2 := by
  constructor
  · have hmap : cells.map (fun popI => estCasesExact popI (qsum cells) c) =
        cells.map (fun popI => popI / qsum cells * c) := by
      apply List.map_congr_left
      intro x _
      rw [estCasesExact, if_pos hP]
    rw [hmap, qsum_map_div_mul, div_self (ne_of_gt hP), one_mul]
  · intro popI
    rw [estCasesExact, if_pos hP, estCasesRounded, if_pos (ne_of_gt hP)]
    exact jsRound_abs_le _

/-- Claim C4, witness: the amended theorem at the spec's two-cell example,
populations 60 and 40 with 100 total cases. -/
theorem c4_amended_witness :
    qsum (([60, 40] : List ℚ).map
      (fun popI => estCasesExact popI (qsum [(60 : ℚ), 40]) 100)) = 100 ∧
    ∀ popI : ℚ,
      |((estCasesRounded popI (qsum [(60 : ℚ), 40]) 100 : ℤ) : ℚ) -
        estCasesExact popI (qsum [(60 : ℚ), 40]) 100| ≤ 1 / 2 :=
  c4_amended [60, 40] 100 (by norm_num [qsum])

/-! ### Outlier Detector: /api/states-high-outliers

Two implementations exist.  The JavaScript variant (routes.js, routes2.js)
computes `avg = sum/N` and `std = sqrt(sum((x-avg)^2)/N)` — the population
standard deviation — and filters `x > avg + std`.  The standalone
`routes/getStatesHighOutliers.js` variant pushes the statistics into SQL
with `AVG(per_capita)` and `STDDEV(per_capita)`; Postgres `STDDEV` is the
sample standard deviation (division by N-1, NULL for a single row), and the
`WHERE per_capita > avg + NULL` comparison is NULL, i.e. no row passes.

Since `sqrt` is irrational on ℚ, the threshold test `x > avg + sqrt v` is
embedded by the equivalent decidable test `avg < x ∧ v < (x - avg)^2`
(the equivalence with the `Real.sqrt` formulation is proven below), and each
output record carries the square of the standard deviation it is annotated
with. -/

/-- Mean of the peer group's rates: `values.reduce((a,b)=>a+b,0)/values.length`. -/
def meanQ (l : List ℚ) : ℚ := qsum l / (l.length : ℚ)

/-- Population variance (divide by N):
`values.reduce((a,b)=>a+Math.pow(b-avg,2),0)/values.length`. -/
def popVarQ (l : List ℚ) : ℚ :=
  qsum (l.map (fun x => (x - meanQ l) ^ 2)) / (l.length : ℚ)

/-- Sample variance (divide by N-1), the square of Postgres `STDDEV`. -/
def sampleVarQ (l : List ℚ) : ℚ :=
  qsum (l.map (fun x => (x - meanQ l) ^ 2)) / ((l.length : ℚ) - 1)

/-- One output record of /api/states-high-outliers.  The JS record carries
`stdRate = sqrt(variance)`; since that is irrational in general, the
embedding carries its square `stdSqRate = variance` instead. -/
structure OutlierRow where
  stateName : Nat
  perCapita : ℚ
  avgRate : ℚ
  stdSqRate : ℚ
deriving DecidableEq

/-- Decidable embedding of the threshold test `x > avg + sqrt(v)` used by
both variants (see `exceedsThreshold_iff`). -/
def exceedsThreshold (x avg v : ℚ) : Bool :=
  decide (avg < x) && decide (v < (x - avg) ^ 2)

/-- The JS variant: filter the peer group by `x > avg + std` with the
population standard deviation and annotate every outlier with the shared
mean and (squared) standard deviation. -/
def outliersJS (rates : List (Nat × ℚ)) : List OutlierRow :=
  let vals := rates.map (fun pr => pr.2)
  (rates.filter (fun pr => exceedsThreshold pr.2 (meanQ vals) (popVarQ vals))).map
    (fun pr => ⟨pr.1, pr.2, meanQ vals, popVarQ vals⟩)

/-- The SQL variant: same filter with the sample standard deviation; for
fewer than two rows `STDDEV` is NULL, the `WHERE` comparison is NULL, and no
row is returned. -/
def outliersSQL (rates : List (Nat × ℚ)) : List OutlierRow :=
  let vals := rates.map (fun pr => pr.2)
  if 2 ≤ rates.length then
    (rates.filter (fun pr => exceedsThreshold pr.2 (meanQ vals) (sampleVarQ vals))).map
      (fun pr => ⟨pr.1, pr.2, meanQ vals, sampleVarQ vals⟩)
  else []

theorem exceedsThreshold_iff (x avg v : ℚ) :
    exceedsThreshold x avg v = true ↔
      (avg : ℝ) + Real.sqrt ((v : ℚ) : ℝ) < ((x : ℚ) : ℝ) := by
  rw [exceedsThreshold, Bool.and_eq_true, decide_eq_true_eq, decide_eq_true_eq]
  constructor
  · rintro ⟨h1, h2⟩
    have h1R : ((avg : ℚ) : ℝ) < ((x : ℚ) : ℝ) := by exact_mod_cast h1
    have h2R : ((v : ℚ) : ℝ) < (((x : ℚ) : ℝ) - ((avg : ℚ) : ℝ)) ^ 2 := by exact_mod_cast h2
    have hpos : (0 : ℝ) < ((x : ℚ) : ℝ) - ((avg : ℚ) : ℝ) := by linarith
    have hlt := (Real.sqrt_lt' hpos).mpr h2R
    linarith
  · intro h
    have hs : (0 : ℝ) ≤ Real.sqrt ((v : ℚ) : ℝ) := Real.sqrt_nonneg _
    have h1R : ((avg : ℚ) : ℝ) < ((x : ℚ) : ℝ) := by linarith
    have hpos : (0 : ℝ) < ((x : ℚ) : ℝ) - ((avg : ℚ) : ℝ) := by linarith
    have h2R := (Real.sqrt_lt' hpos).mp (by linarith)
    exact ⟨by exact_mod_cast h1R, by exact_mod_cast h2R⟩

/-- Peer group for the population-vs-sample counterexample: rates
0, 0, 8.5 and 10 give mean 37/8, population variance 1387/64 and sample
variance 1387/48; entity 3 (rate 10) lies strictly above
mean + population-std but not above mean + sample-std. -/
def exRatesC5 : List (Nat × ℚ) := [(0, 0), (1, 0), (2, 17 / 2), (3, 10)]

/-- Claim C5, counterexample.  Entity 3's rate 10 strictly exceeds the peer
group's mean plus the population standard deviation, so the claim requires
it to be returned, but the `routes/getStatesHighOutliers.js` variant, which
uses Postgres's sample `STDDEV`, returns no outliers at all on this peer
group. -/
theorem c5_counterexample :
    (meanQ (exRatesC5.map (fun pr => pr.2)) : ℝ) +
      Real.sqrt ((popVarQ (exRatesC5.map (fun pr => pr.2)) : ℚ) : ℝ) < ((10 : ℚ) : ℝ) ∧
    (3, (10 : ℚ)) ∈ exRatesC5 ∧
    outliersSQL exRatesC5 = [] := by
  refine ⟨?_, by simp [exRatesC5], ?_⟩
  · rw [← exceedsThreshold_iff]
    with_unfolding_all rfl
  · with_unfolding_all rfl

/-- Claim C5, amended.  For every nonempty peer group: the JS variant returns
exactly the entities whose rate strictly exceeds mean + population standard
deviation (variance divided by N), each annotated with that shared mean and
(squared) standard deviation; the `routes/getStatesHighOutliers.js` SQL
variant instead returns exactly the entities whose rate strictly exceeds
mean + sample standard deviation (variance divided by N-1, requiring a peer
group of at least two), annotated with the sample statistics. -/
theorem c5_amended (rates : List (Nat × ℚ)) (_hne : rates ≠ []) :
    (∀ row : OutlierRow, row ∈ outliersJS rates ↔
      ((row.stateName, row.perCapita) ∈ rates ∧
       (meanQ (rates.map (fun pr => pr.2)) : ℝ) +
         Real.sqrt ((popVarQ (rates.map (fun pr => pr.2)) : ℚ) : ℝ) <
           ((row.perCapita : ℚ) : ℝ) ∧
       row.avgRate = meanQ (rates.map (fun pr => pr.2)) ∧
       row.stdSqRate = popVarQ (rates.map (fun pr => pr.2)))) ∧
    (∀ row : OutlierRow, row ∈ outliersSQL rates ↔
      (2 ≤ rates.length ∧ (row.stateName, row.perCapita) ∈ rates ∧
       (meanQ (rates.map (fun pr => pr.2)) : ℝ) +
         Real.sqrt ((sampleVarQ (rates.map (fun pr => pr.2)) : ℚ) : ℝ) <
           ((row.perCapita : ℚ) : ℝ) ∧
       row.avgRate = meanQ (rates.map (fun pr => pr.2)) ∧
       row.stdSqRate = sampleVarQ (rates.map (fun pr => pr.2)))) := by
  constructor
  · intro row
    simp only [outliersJS]
    constructor
    · intro hmem
      simp only [List.mem_map, List.mem_filter] at hmem
      obtain ⟨pr, ⟨hpr, hcond⟩, heq⟩ := hmem
      subst heq
      exact ⟨hpr, (exceedsThreshold_iff _ _ _).mp hcond, rfl, rfl⟩
    · rintro ⟨hmem, hthr, havg, hstd⟩
      simp only [List.mem_map, List.mem_filter]
      refine ⟨(row.stateName, row.perCapita), ⟨hmem, (exceedsThreshold_iff _ _ _).mpr hthr⟩, ?_⟩
      rcases row with ⟨s, x, a, v⟩
      simp only at havg hstd
      rw [havg, hstd]
  · intro row
    simp only [outliersSQL]
    by_cases hlen : 2 ≤ rates.length
    · rw [if_pos hlen]
      constructor
      · intro hmem
        simp only [List.mem_map, List.mem_filter] at hmem
        obtain ⟨pr, ⟨hpr, hcond⟩, heq⟩ := hmem
        subst heq
        exact ⟨hlen, hpr, (exceedsThreshold_iff _ _ _).mp hcond, rfl, rfl⟩
      · rintro ⟨_, hmem, hthr, havg, hstd⟩
        simp only [List.mem_map, List.mem_filter]
        refine ⟨(row.stateName, row.perCapita), ⟨hmem, (exceedsThreshold_iff _ _ _).mpr hthr⟩, ?_⟩
        rcases row with ⟨s, x, a, v⟩
        simp only at havg hstd
        rw [havg, hstd]
    · rw [if_neg hlen]
      simp only [List.not_mem_nil, false_iff]
      rintro ⟨h2, _⟩
      exact hlen h2

/-- Claim C5, witness: on the peer group with rates 0, 0 and 9 the JS variant
reports entity 2 (mean 3, population variance 18, and 3 + sqrt 18 < 9). -/
theorem c5_amended_witness :
    (⟨2, 9, meanQ ([((0 : Nat), (0 : ℚ)), (1, 0), (2, 9)].map (fun pr => pr.2)),
        popVarQ ([((0 : Nat), (0 : ℚ)), (1, 0), (2, 9)].map (fun pr => pr.2))⟩ : OutlierRow) ∈
      outliersJS [(0, 0), (1, 0), (2, 9)] :=
  ((c5_amended [(0, 0), (1, 0), (2, 9)] (by simp)).1 _).mpr
    ⟨by simp, by rw [← exceedsThreshold_iff]; with_unfolding_all rfl, rfl, rfl⟩

/-- Claim C6: on an empty peer group both outlier-detector variants return no
outliers and are total functions (no runtime fault), and on a peer group of
a single entity neither variant ever flags that entity: in the JS variant
the mean equals the single rate and the strict comparison `x > x + 0` fails;
in the SQL variant `STDDEV` of one row is NULL and the NULL comparison
passes nothing. -/
theorem c6_empty_singleton :
    outliersJS [] = [] ∧ outliersSQL [] = [] ∧
    ∀ (s : Nat) (x : ℚ), outliersJS [(s, x)] = [] ∧ outliersSQL [(s, x)] = [] := by
  refine ⟨rfl, rfl, fun s x => ⟨?_, ?_⟩⟩
  · have hm : meanQ [x] = x := by
      rw [meanQ, qsum]
      norm_num
    simp [outliersJS, exceedsThreshold, hm]
  · simp [outliersSQL]

/-- Claim C6, witness: the singleton statement at the concrete entity (0, 5). -/
theorem c6_empty_singleton_witness :
    outliersJS [(0, (5 : ℚ))] = [] ∧ outliersSQL [(0, (5 : ℚ))] = [] :=
  c6_empty_singleton.2.2 0 5

/-! ### Trend Detector: /api/states-rising-4years

The `routes/getStatesRising4Years.js` query builds `per_year` (one row per
state and year in range, with the NULLIF per-capita rate), takes
`LAG(rate) OVER (PARTITION BY state_name ORDER BY year)`, and keeps states
with `COUNT(*) = endYear - startYear + 1` and
`BOOL_AND(prev_rate IS NULL OR rate > prev_rate)`.  SQL three-valued logic
matters: when a rate is NULL (zero population) the comparison is NULL and
`BOOL_AND` skips it, and a NULL previous rate satisfies `prev_rate IS NULL`
outright, so NULL-rate years never disqualify a state. -/

/-- The inclusive year range `[y0, y3]` as a list. -/
def yearsList (y0 y3 : Int) : List Int :=
  (List.range (y3 + 1 - y0).toNat).map (fun i => y0 + (i : Int))

/-- Whether `per_year` has a row for (state, year): the state needs at least
one fact row for the disease and year, and (inner join) a population row at
`LEAST(year, 2023)`. -/
def yearHasJoinedRows (facts : List CaseRow) (pops : List PopRow) (s d : Nat) (yr : Int) :
    Bool :=
  stateHasRows facts s d yr && (popLookup pops s (min yr 2023)).isSome

/-- The `rate` column of `per_year`:
`SUM(cases) / NULLIF(population, 0) * 100000`, NULL for a zero population. -/
def yearRate (facts : List CaseRow) (pops : List PopRow) (s d : Nat) (yr : Int) : Option ℚ :=
  match popLookup pops s (min yr 2023) with
  | some p => if p = 0 then none else some ((stateCases facts s d yr : ℚ) / (p : ℚ) * 100000)
  | none => none

/-- The `per_year` rows of one state, ordered by year. -/
def perYearRows (facts : List CaseRow) (pops : List PopRow) (s d : Nat) (y0 y3 : Int) :
    List (Int × Option ℚ) :=
  (yearsList y0 y3).filterMap (fun yr =>
    if yearHasJoinedRows facts pops s d yr then some (yr, yearRate facts pops s d yr) else none)

/-- The per-row values of `prev_rate IS NULL OR rate > prev_rate` under SQL
three-valued logic, walking the year-ordered rows with the LAG value:
`some true` when the previous rate is NULL (first row included), `none`
(SQL NULL) when the previous rate is defined but the current rate is NULL,
and the strict comparison otherwise. -/
def lagConds : Option ℚ → List (Int × Option ℚ) → List (Option Bool)
  | _, [] => []
  | prev, (_, r) :: rest =>
    (match prev with
     | none => some true
     | some p =>
       match r with
       | none => none
       | some rv => some (decide (p < rv))) :: lagConds r rest

/-- SQL `BOOL_AND`: NULL inputs are skipped; the aggregate over no non-NULL
input is NULL. -/
def boolAndSQL (l : List (Option Bool)) : Option Bool :=
  let picked := l.filterMap id
  if picked.isEmpty then none else some (picked.all (fun b => b))

/-- The output of /api/states-rising-4years: the states (from the fact
table) whose `per_year` group has one row per year of the range and whose
`BOOL_AND` is TRUE.  (The SQL orders the result by state name; the
embedding keeps the candidate order, which does not affect the membership
properties proven below.) -/
def risingStates (facts : List CaseRow) (pops : List PopRow) (d : Nat) (y0 y3 : Int) :
    List Nat :=
  ((facts.map (fun f => f.regionId)).dedup).filter (fun s =>
    (perYearRows facts pops s d y0 y3).length == (y3 + 1 - y0).toNat &&
      boolAndSQL (lagConds none (perYearRows facts pops s d y0 y3)) == some true)

theorem yearsList_four (y0 : Int) : yearsList y0 (y0 + 3) = [y0, y0 + 1, y0 + 2, y0 + 3] := by
  have h : (y0 + 3 + 1 - y0).toNat = 4 := by omega
  rw [yearsList, h]
  norm_num [List.range_succ]

theorem filterMap_if_eq {α β : Type} (p : α → Bool) (g : α → β) (l : List α) :
    l.filterMap (fun a => if p a then some (g a) else none) = (l.filter p).map g := by
  induction l with
  | nil => rfl
  | cons a t ih =>
    by_cases h : p a <;> simp [List.filterMap_cons, List.filter_cons, h, ih]

/-- Case data for the NULL-rate counterexample: state 0 has one case row in
each of 2020-2023 (5, 1, 2 and 3 cases). -/
def exFactsC7 : List CaseRow :=
  [⟨0, 0, 2020, 1, some 5⟩, ⟨0, 0, 2021, 1, some 1⟩,
   ⟨0, 0, 2022, 1, some 2⟩, ⟨0, 0, 2023, 1, some 3⟩]

/-- Population rows for the NULL-rate counterexample: population 0 in 2020
(making the 2020 rate NULL) and 100 in the later years. -/
def exPopsC7 : List PopRow :=
  [⟨0, 2020, 0⟩, ⟨0, 2021, 100⟩, ⟨0, 2022, 100⟩, ⟨0, 2023, 100⟩]

/-- Claim C7, counterexample.  State 0's per-capita rate for 2020 is NULL
(population 0), so its rate is not present for every year of [2020, 2023]
and the claim requires it to be excluded; but the query returns it: the row
count is still 4, the 2020 comparison is TRUE (`prev_rate IS NULL`), the
2021 comparison is also TRUE (its LAG value is the NULL 2020 rate), and the
remaining comparisons hold. -/
theorem c7_counterexample :
    risingStates exFactsC7 exPopsC7 0 2020 2023 = [0] ∧
    yearRate exFactsC7 exPopsC7 0 0 2020 = none := by
  constructor <;> with_unfolding_all rfl

/-- Claim C7, amended.  Provided every year of the 4-year range that has a
`per_year` row for the state has a non-NULL rate (in particular whenever all
populations are positive), the detector returns exactly the states that have
a row for every year of the range with strictly increasing rates; equal or
decreasing steps and missing years disqualify.  (Without that proviso,
NULL-rate years are skipped by `BOOL_AND` and such states can be returned,
as the counterexample shows.) -/
theorem c7_amended (facts : List CaseRow) (pops : List PopRow) (d s : Nat) (y0 : Int)
    (hdef : ∀ yr ∈ yearsList y0 (y0 + 3), yearHasJoinedRows facts pops s d yr = true →
      yearRate facts pops s d yr ≠ none) :
    s ∈ risingStates facts pops d y0 (y0 + 3) ↔
      ((∀ yr ∈ yearsList y0 (y0 + 3), yearHasJoinedRows facts pops s d yr = true) ∧
       ∃ r0 r1 r2 r3 : ℚ,
         yearRate facts pops s d y0 = some r0 ∧
         yearRate facts pops s d (y0 + 1) = some r1 ∧
         yearRate facts pops s d (y0 + 2) = some r2 ∧
         yearRate facts pops s d (y0 + 3) = some r3 ∧
         r0 < r1 ∧ r1 < r2 ∧ r2 < r3) := by
  have hy : yearsList y0 (y0 + 3) = [y0, y0 + 1, y0 + 2, y0 + 3] := yearsList_four y0
  have hrows : perYearRows facts pops s d y0 (y0 + 3) =
      ((yearsList y0 (y0 + 3)).filter (fun yr => yearHasJoinedRows facts pops s d yr)).map
        (fun yr => (yr, yearRate facts pops s d yr)) :=
    filterMap_if_eq _ _ _
  have hlen4 : (y0 + 3 + 1 - y0).toNat = 4 := by omega
  have hylen : (yearsList y0 (y0 + 3)).length = 4 := by rw [hy]; rfl
  constructor
  · intro hmem
    rw [risingStates, List.mem_filter, Bool.and_eq_true, beq_iff_eq, beq_iff_eq] at hmem
    obtain ⟨hdedup, hlen, hba⟩ := hmem
    rw [hrows, List.length_map, hlen4] at hlen
    have hall : ∀ yr ∈ yearsList y0 (y0 + 3), yearHasJoinedRows facts pops s d yr = true := by
      rw [← List.filter_length_eq_length, hlen, hylen]
    refine ⟨hall, ?_⟩
    rcases hq0 : yearRate facts pops s d y0 with _ | r0
    · exact absurd hq0 (hdef y0 (by rw [hy]; simp) (hall y0 (by rw [hy]; simp)))
    rcases hq1 : yearRate facts pops s d (y0 + 1) with _ | r1
    · exact absurd hq1 (hdef (y0 + 1) (by rw [hy]; simp) (hall (y0 + 1) (by rw [hy]; simp)))
    rcases hq2 : yearRate facts pops s d (y0 + 2) with _ | r2
    · exact absurd hq2 (hdef (y0 + 2) (by rw [hy]; simp) (hall (y0 + 2) (by rw [hy]; simp)))
    rcases hq3 : yearRate facts pops s d (y0 + 3) with _ | r3
    · exact absurd hq3 (hdef (y0 + 3) (by rw [hy]; simp) (hall (y0 + 3) (by rw [hy]; simp)))
    refine ⟨r0, r1, r2, r3, rfl, rfl, rfl, rfl, ?_, ?_, ?_⟩ <;>
    · have hfe : (yearsList y0 (y0 + 3)).filter
          (fun yr => yearHasJoinedRows facts pops s d yr) = yearsList y0 (y0 + 3) :=
        List.filter_eq_self.mpr hall
      rw [hfe, hy, List.map_cons, List.map_cons, List.map_cons, List.map_cons,
        List.map_nil, hq0, hq1, hq2, hq3] at hrows
      rw [hrows] at hba
      simp only [lagConds, boolAndSQL, List.filterMap_cons, List.filterMap_nil, id,
        List.isEmpty_cons, if_neg, Option.some.injEq, Bool.and_eq_true, List.all_cons,
        List.all_nil, decide_eq_true_eq] at hba
      simp only [Bool.false_eq_true, if_false, Option.some.injEq] at hba
      rw [show (true && (decide (r0 < r1) && (decide (r1 < r2) && (decide (r2 < r3) &&
        true)))) = (decide (r0 < r1) && decide (r1 < r2) && decide (r2 < r3)) from by
          cases h01 : decide (r0 < r1) <;> cases h12 : decide (r1 < r2) <;>
            cases h23 : decide (r2 < r3) <;> rfl] at hba
      rw [Bool.and_eq_true, Bool.and_eq_true] at hba
      first
      | exact of_decide_eq_true hba.1.1
      | exact of_decide_eq_true hba.1.2
      | exact of_decide_eq_true hba.2
  · rintro ⟨hall, r0, r1, r2, r3, hq0, hq1, hq2, hq3, h01, h12, h23⟩
    rw [risingStates, List.mem_filter, Bool.and_eq_true, beq_iff_eq, beq_iff_eq]
    have hfe : (yearsList y0 (y0 + 3)).filter
        (fun yr => yearHasJoinedRows facts pops s d yr) = yearsList y0 (y0 + 3) :=
      List.filter_eq_self.mpr hall
    rw [hfe, hy, List.map_cons, List.map_cons, List.map_cons, List.map_cons,
      List.map_nil, hq0, hq1, hq2, hq3] at hrows
    have hsrow : stateHasRows facts s d y0 = true := by
      have h := hall y0 (by rw [hy]; simp)
      rw [yearHasJoinedRows, Bool.and_eq_true] at h
      exact h.1
    refine ⟨?_, ?_, ?_⟩
    · rw [stateHasRows, List.any_eq_true] at hsrow
      obtain ⟨f, hf, hfp⟩ := hsrow
      rw [Bool.and_eq_true, Bool.and_eq_true, beq_iff_eq] at hfp
      rw [List.mem_dedup, List.mem_map]
      exact ⟨f, hf, hfp.1.1⟩
    · rw [hrows]
      simp [hlen4]
    · rw [hrows]
      simp only [lagConds, boolAndSQL, List.filterMap_cons, List.filterMap_nil, id,
        List.isEmpty_cons, Option.some.injEq, List.all_cons, List.all_nil]
      rw [decide_eq_true h01, decide_eq_true h12, decide_eq_true h23]
      rfl

/-- Case data for the rising witness: rates 1000, 2000, 3000, 4000 across
2020-2023. -/
def exFactsC7w : List CaseRow :=
  [⟨0, 0, 2020, 1, some 1⟩, ⟨0, 0, 2021, 1, some 2⟩,
   ⟨0, 0, 2022, 1, some 3⟩, ⟨0, 0, 2023, 1, some 4⟩]

/-- Population rows for the rising witness: population 100 in every year. -/
def exPopsC7w : List PopRow :=
  [⟨0, 2020, 100⟩, ⟨0, 2021, 100⟩, ⟨0, 2022, 100⟩, ⟨0, 2023, 100⟩]

/-- Claim C7, witness: with all populations positive and strictly increasing
rates across the full 4-year window, the state is reported rising. -/
theorem c7_amended_witness : (0 : Nat) ∈ risingStates exFactsC7w exPopsC7w 0 2020 (2020 + 3) :=
  (c7_amended exFactsC7w exPopsC7w 0 0 2020
    (by intro yr hyr; rw [yearsList_four] at hyr; fin_cases hyr <;> with_unfolding_all decide)).mpr
    ⟨by intro yr hyr; rw [yearsList_four] at hyr; fin_cases hyr <;> with_unfolding_all decide,
     1000, 2000, 3000, 4000,
     by with_unfolding_all rfl, by with_unfolding_all rfl,
     by with_unfolding_all rfl, by with_unfolding_all rfl,
     by norm_num, by norm_num, by norm_num⟩

/-! ### Sliding-Window Aggregator: /api/state-weekly-percapita

For the target (year, week), `percap_state_week` sums the target week's
cases per (region, disease) and `percap_state_52wkmax` takes, per (region,
disease), the maximum of the weekly sums over the weeks
`BETWEEN GREATEST(week-51, 1) AND week` of the same year.  The final select
joins the two CTEs with the population at `LEAST(year, 2023)` and divides
both by the population (x 100000 in the documented variant). -/

/-- Weekly case sum `SUM(COALESCE(current_week_cases, 0))` for one
(region, disease, year, week) group. -/
def weeklySum (facts : List CaseRow) (r d : Nat) (y w : Int) : Nat :=
  natSum ((facts.filter (fun f =>
    f.regionId == r && f.diseaseId == d && f.year == y && f.week == w)).map
    (fun f => coalesce f.cases))

/-- Whether the fact table has a row for (region, disease, year, week). -/
def hasWeekRow (facts : List CaseRow) (r d : Nat) (y w : Int) : Bool :=
  facts.any (fun f =>
    f.regionId == r && f.diseaseId == d && f.year == y && f.week == w)

/-- The window `BETWEEN GREATEST(week-51, 1) AND week`: the 52 integers
from `w - 51` to `w`, clamped below at week 1. -/
def windowWeeks (w : Int) : List Int :=
  ((List.range 52).map (fun i => w - (i : Int))).filter (fun wk => decide (1 ≤ wk))

/-- The window weeks that actually have fact rows (SQL aggregates only over
existing rows). -/
def presentWindowWeeks (facts : List CaseRow) (r d : Nat) (y w : Int) : List Int :=
  (windowWeeks w).filter (fun wk => hasWeekRow facts r d y wk)

/-- `MAX(SUM(cases)) OVER (PARTITION BY region, disease)` of
`percap_state_52wkmax`: the maximum weekly sum over the present window
weeks. -/
def max52Cases (facts : List CaseRow) (r d : Nat) (y w : Int) : Nat :=
  ((presentWindowWeeks facts r d y w).map (fun wk => weeklySum facts r d y wk)).foldr max 0

/-- One output row of /api/state-weekly-percapita for (region, disease):
present when the target week has fact rows (first CTE), the window has rows
(second CTE), and a population row exists for LEAST(year, 2023); the two
per-capita columns are NULL for a zero population (NULLIF). -/
def weeklyOutputRow (facts : List CaseRow) (pops : List PopRow) (r d : Nat) (y w : Int) :
    Option (Option ℚ × Option ℚ) :=
  if hasWeekRow facts r d y w && !(presentWindowWeeks facts r d y w).isEmpty then
    (popLookup pops r (min y 2023)).map (fun p =>
      (if p = 0 then none else some ((weeklySum facts r d y w : ℚ) / (p : ℚ) * 100000),
       if p = 0 then none else some ((max52Cases facts r d y w : ℚ) / (p : ℚ) * 100000)))
  else none

theorem le_foldr_max (l : List Nat) (x : Nat) (hx : x ∈ l) : x ≤ l.foldr max 0 := by
  induction l with
  | nil => cases hx
  | cons a t ih =>
    rcases List.mem_cons.mp hx with h | h
    · rw [h]
      exact le_max_left _ _
    · exact le_trans (ih h) (le_max_right _ _)

theorem foldr_max_zero_or_mem (l : List Nat) : l.foldr max 0 = 0 ∨ l.foldr max 0 ∈ l := by
  induction l with
  | nil => exact Or.inl rfl
  | cons a t ih =>
    have hfold : (a :: t).foldr max 0 = max a (t.foldr max 0) := rfl
    rcases max_choice a (t.foldr max 0) with h | h
    · right
      rw [hfold, h]
      exact List.mem_cons_self a t
    · rcases ih with h0 | hm
      · left
        rw [hfold, h, h0]
      · right
        rw [hfold, h]
        exact List.mem_cons_of_mem a hm

theorem weeklySum_of_no_row (facts : List CaseRow) (r d : Nat) (y w : Int)
    (h : hasWeekRow facts r d y w = false) : weeklySum facts r d y w = 0 := by
  rw [hasWeekRow, List.any_eq_false] at h
  rw [weeklySum, List.filter_eq_nil_iff.mpr h]
  rfl

/-- Claim C8: in every surfaced row of the weekly endpoint (documented
variant) with a positive population and target week at least 1, the reported
`perCapita52WeekMax` equals the maximum weekly per-capita rate over the
window `[max(1, w-51), w]` of the same year — attained at some window week
`wk0` and at least every window week's rate, where a week with no fact rows
contributes a zero sum — and is therefore at least the reported
`perCapitaWeeklyCases` of the target week itself. -/
theorem c8_window_max (facts : List CaseRow) (pops : List PopRow) (r d : Nat) (y w : Int)
    (p : Nat) (hw : 1 ≤ w) (hrow : hasWeekRow facts r d y w = true)
    (hp : popLookup pops r (min y 2023) = some p) (hp0 : 0 < p) :
    ∃ wk0 ∈ windowWeeks w,
      weeklyOutputRow facts pops r d y w =
        some (some ((weeklySum facts r d y w : ℚ) / (p : ℚ) * 100000),
              some ((weeklySum facts r d y wk0 : ℚ) / (p : ℚ) * 100000)) ∧
      (∀ wk ∈ windowWeeks w,
        (weeklySum facts r d y wk : ℚ) / (p : ℚ) * 100000 ≤
          (weeklySum facts r d y wk0 : ℚ) / (p : ℚ) * 100000) ∧
      (weeklySum facts r d y w : ℚ) / (p : ℚ) * 100000 ≤
        (weeklySum facts r d y wk0 : ℚ) / (p : ℚ) * 100000 := by
  have hwmem : w ∈ windowWeeks w := by
    rw [windowWeeks, List.mem_filter]
    constructor
    · have h0 : (0 : ℕ) ∈ List.range 52 := by decide
      have h : w - ((0 : ℕ) : ℤ) ∈ List.map (fun i : ℕ => w - (i : ℤ)) (List.range 52) :=
        List.mem_map_of_mem _ h0
      have he : w - ((0 : ℕ) : ℤ) = w := by simp
      rw [he] at h
      exact h
    · exact decide_eq_true hw
  have hpres : w ∈ presentWindowWeeks facts r d y w :=
    List.mem_filter.mpr ⟨hwmem, hrow⟩
  have hub : ∀ wk ∈ windowWeeks w, weeklySum facts r d y wk ≤ max52Cases facts r d y w := by
    intro wk hwk
    by_cases hhas : hasWeekRow facts r d y wk = true
    · exact le_foldr_max _ _ (List.mem_map.mpr
        ⟨wk, List.mem_filter.mpr ⟨hwk, hhas⟩, rfl⟩)
    · rw [weeklySum_of_no_row facts r d y wk (by
        cases h : hasWeekRow facts r d y wk
        · rfl
        · exact absurd h hhas)]
      exact Nat.zero_le _
  have hex : ∃ wk0 ∈ windowWeeks w, weeklySum facts r d y wk0 = max52Cases facts r d y w := by
    rcases foldr_max_zero_or_mem
        ((presentWindowWeeks facts r d y w).map (fun wk => weeklySum facts r d y wk)) with
      h0 | hm
    · refine ⟨w, hwmem, ?_⟩
      have hle := hub w hwmem
      rw [max52Cases, h0] at hle ⊢
      omega
    · rw [List.mem_map] at hm
      obtain ⟨wk0, hwk0, heq⟩ := hm
      exact ⟨wk0, (List.mem_filter.mp hwk0).1, heq⟩
  obtain ⟨wk0, hwk0, heq⟩ := hex
  have hmono : ∀ s m : Nat, s ≤ m →
      (s : ℚ) / (p : ℚ) * 100000 ≤ (m : ℚ) / (p : ℚ) * 100000 := by
    intro s m hsm
    have hc : (s : ℚ) ≤ (m : ℚ) := by exact_mod_cast hsm
    have hpq : (0 : ℚ) < (p : ℚ) := by exact_mod_cast hp0
    exact mul_le_mul_of_nonneg_right ((div_le_div_iff_of_pos_right hpq).mpr hc) (by norm_num)
  refine ⟨wk0, hwk0, ?_, ?_, ?_⟩
  · have hcond : (hasWeekRow facts r d y w &&
        !(presentWindowWeeks facts r d y w).isEmpty) = true := by
      rw [hrow, Bool.true_and, Bool.not_eq_eq_eq_not, Bool.not_true, List.isEmpty_eq_false]
      exact List.ne_nil_of_mem hpres
    rw [weeklyOutputRow, if_pos hcond, hp, heq]
    have hpne : p ≠ 0 := Nat.pos_iff_ne_zero.mp hp0
    simp [hpne]
  · intro wk hwk
    rw [heq]
    exact hmono _ _ (hub wk hwk)
  · rw [heq]
    exact hmono _ _ (hub w hwmem)

/-- Case data for the sliding-window witness: weekly sums 30 (week 1) and 10
(week 2) of year 2020 for one region and disease. -/
def exFactsC8 : List CaseRow := [⟨0, 0, 2020, 1, some 30⟩, ⟨0, 0, 2020, 2, some 10⟩]

/-- Population row for the sliding-window witness. -/
def exPopsC8 : List PopRow := [⟨0, 2020, 100⟩]

/-- Claim C8, witness: the window-max theorem at target week 2 with
population 100. -/
theorem c8_window_max_witness :
    ∃ wk0 ∈ windowWeeks 2,
      weeklyOutputRow exFactsC8 exPopsC8 0 0 2020 2 =
        some (some ((weeklySum exFactsC8 0 0 2020 2 : ℚ) / ((100 : ℕ) : ℚ) * 100000),
              some ((weeklySum exFactsC8 0 0 2020 wk0 : ℚ) / ((100 : ℕ) : ℚ) * 100000)) ∧
      (∀ wk ∈ windowWeeks 2,
        (weeklySum exFactsC8 0 0 2020 wk : ℚ) / ((100 : ℕ) : ℚ) * 100000 ≤
          (weeklySum exFactsC8 0 0 2020 wk0 : ℚ) / ((100 : ℕ) : ℚ) * 100000) ∧
      (weeklySum exFactsC8 0 0 2020 2 : ℚ) / ((100 : ℕ) : ℚ) * 100000 ≤
        (weeklySum exFactsC8 0 0 2020 wk0 : ℚ) / ((100 : ℕ) : ℚ) * 100000 :=
  c8_window_max exFactsC8 exPopsC8 0 0 2020 2 100 (by norm_num) (by decide)
    (by decide) (by norm_num)

/-! ### Exposure Analyzer: /api/state-demographic-overunder

The JS post-processing of `getStateDemographicOverUnder` receives one row
per demographic cell (allocated cases and population), recomputes the totals
by summation, forms the unrounded shares `demoCases / totalCases` and
`demoPopulation / totalPop` (0 when the respective total is 0, by JS
truthiness), and only in the returned record applies `toFixed(4)` — to each
share and to the exact difference of the unrounded shares. -/

/-- One input row of the exposure computation: a demographic cell with its
(possibly estimated) case count and its population. -/
structure DemoRow where
  race : Nat
  sex : Nat
  ageGroup : Nat
  demoCases : ℚ
  demoPopulation : ℚ
deriving DecidableEq

/-- One output record of /api/state-demographic-overunder. -/
structure ExposureRow where
  race : Nat
  sex : Nat
  ageGroup : Nat
  demoCases : ℚ
  demoPopulation : ℚ
  shareOfCases : ℚ
  shareOfPopulation : ℚ
  overUnderExposure : ℚ
deriving DecidableEq

/-- `Number(x.toFixed(4))`: rounding to 4 decimal places, ties toward
positive infinity. -/
def round4 (q : ℚ) : ℚ := ((⌊q * 10000 + 1 / 2⌋ : ℤ) : ℚ) / 10000

/-- `totalCases`: the reduce-sum of the rows' case values. -/
def totalCasesOf (rows : List DemoRow) : ℚ := qsum (rows.map (fun r => r.demoCases))

/-- `totalPop`: the reduce-sum of the rows' population values. -/
def totalPopOf (rows : List DemoRow) : ℚ := qsum (rows.map (fun r => r.demoPopulation))

/-- Unrounded `shareCases = totalCases ? demoCases / totalCases : 0`. -/
def shareOfCasesRaw (rows : List DemoRow) (row : DemoRow) : ℚ :=
  if totalCasesOf rows = 0 then 0 else row.demoCases / totalCasesOf rows

/-- Unrounded `sharePop = totalPop ? demoPopulation / totalPop : 0`. -/
def shareOfPopRaw (rows : List DemoRow) (row : DemoRow) : ℚ :=
  if totalPopOf rows = 0 then 0 else row.demoPopulation / totalPopOf rows

/-- The returned records: every rounded field is `toFixed(4)` of an
unrounded value; in particular `overUnderExposure` rounds the exact
difference of the unrounded shares. -/
def overUnderResponse (rows : List DemoRow) : List ExposureRow :=
  rows.map (fun row =>
    { race := row.race, sex := row.sex, ageGroup := row.ageGroup,
      demoCases := row.demoCases, demoPopulation := row.demoPopulation,
      shareOfCases := round4 (shareOfCasesRaw rows row),
      shareOfPopulation := round4 (shareOfPopRaw rows row),
      overUnderExposure := round4 (shareOfCasesRaw rows row - shareOfPopRaw rows row) })

theorem qsum_map_div {α : Type} (l : List α) (f : α → ℚ) (t : ℚ) :
    qsum (l.map (fun x => f x / t)) = qsum (l.map f) / t := by
  induction l with
  | nil => simp [qsum]
  | cons a tl ih =>
    rw [List.map_cons, List.map_cons, qsum_cons, qsum_cons, ih, add_div]

theorem qsum_map_sub {α : Type} (l : List α) (f g : α → ℚ) :
    qsum (l.map (fun x => f x - g x)) = qsum (l.map f) - qsum (l.map g) := by
  induction l with
  | nil => simp [qsum]
  | cons a tl ih =>
    rw [List.map_cons, List.map_cons, List.map_cons, qsum_cons, qsum_cons, qsum_cons, ih]
    ring

/-- Claim C9: whenever the recomputed total cases and total population of an
exposure result are positive, the unrounded shares of cases sum to exactly
1, the unrounded shares of population sum to exactly 1, and the unrounded
over/under-exposures sum to exactly 0; the 4-decimal rounding enters only in
the output records, each of which carries `toFixed(4)` of the exact
difference of the unrounded shares. -/
theorem c9_share_sums (rows : List DemoRow)
    (hc : 0 < totalCasesOf rows) (hp : 0 < totalPopOf rows) :
    qsum (rows.map (fun row => shareOfCasesRaw rows row)) = 1 ∧
    qsum (rows.map (fun row => shareOfPopRaw rows row)) = 1 ∧
    qsum (rows.map (fun row => shareOfCasesRaw rows row - shareOfPopRaw rows row)) = 0 ∧
    (overUnderResponse rows).map (fun r => r.overUnderExposure) =
      rows.map (fun row => round4 (shareOfCasesRaw rows row - shareOfPopRaw rows row)) := by
  have hcne : totalCasesOf rows ≠ 0 := ne_of_gt hc
  have hpne : totalPopOf rows ≠ 0 := ne_of_gt hp
  have h1 : qsum (rows.map (fun row => shareOfCasesRaw rows row)) = 1 := by
    have hm : rows.map (fun row => shareOfCasesRaw rows row) =
        rows.map (fun row => row.demoCases / totalCasesOf rows) := by
      apply List.map_congr_left
      intro x _
      rw [shareOfCasesRaw, if_neg hcne]
    have hmm : rows.map (fun row => row.demoCases / totalCasesOf rows) =
        (rows.map (fun row => row.demoCases)).map (fun q => q / totalCasesOf rows) := by
      rw [List.map_map]
      rfl
    rw [hm, hmm,
      qsum_map_div (rows.map (fun row => row.demoCases)) (fun q => q) (totalCasesOf rows),
      List.map_id']
    exact div_self hcne
  have h2 : qsum (rows.map (fun row => shareOfPopRaw rows row)) = 1 := by
    have hm : rows.map (fun row => shareOfPopRaw rows row) =
        rows.map (fun row => row.demoPopulation / totalPopOf rows) := by
      apply List.map_congr_left
      intro x _
      rw [shareOfPopRaw, if_neg hpne]
    have hmm : rows.map (fun row => row.demoPopulation / totalPopOf rows) =
        (rows.map (fun row => row.demoPopulation)).map (fun q => q / totalPopOf rows) := by
      rw [List.map_map]
      rfl
    rw [hm, hmm,
      qsum_map_div (rows.map (fun row => row.demoPopulation)) (fun q => q) (totalPopOf rows),
      List.map_id']
    exact div_self hpne
  refine ⟨h1, h2, ?_, ?_⟩
  · rw [qsum_map_sub, h1, h2, sub_self]
  · rw [overUnderResponse, List.map_map]
    rfl

/-- Input rows for the exposure witness: the spec's two-cell example with
populations 60 and 40 and allocated cases 70 and 30. -/
def exRowsC9 : List DemoRow := [⟨0, 0, 0, 70, 60⟩, ⟨1, 0, 0, 30, 40⟩]

/-- Claim C9, witness: the share-sum invariants at the spec's two-cell
example. -/
theorem c9_share_sums_witness :
    qsum (exRowsC9.map (fun row => shareOfCasesRaw exRowsC9 row)) = 1 ∧
    qsum (exRowsC9.map (fun row => shareOfPopRaw exRowsC9 row)) = 1 ∧
    qsum (exRowsC9.map (fun row =>
      shareOfCasesRaw exRowsC9 row - shareOfPopRaw exRowsC9 row)) = 0 ∧
    (overUnderResponse exRowsC9).map (fun r => r.overUnderExposure) =
      exRowsC9.map (fun row =>
        round4 (shareOfCasesRaw exRowsC9 row - shareOfPopRaw exRowsC9 row)) :=
  c9_share_sums exRowsC9 (by norm_num [totalCasesOf, qsum, exRowsC9])
    (by norm_num [totalPopOf, qsum, exRowsC9])

end DiseaseAnalytics
